import Mathlib

/-!
Shallow embedding of the profile-resolution and contact-extraction pipeline
of src/instagram_bot.py (class InstagramBot): identifier normalization,
text sanitization, bio contact mining, website contact extraction, response
formatting and chunking, and the profile-handling pipeline.

Python strings are modeled as `String` / `List Char`, `None` as
`Option.none`.  Network-dependent steps (the two profile data sources and
the website retrieval) are passed in as explicit oracle parameters: an
oracle returning `none` models the corresponding request raising or
yielding no usable structure, which the Python code catches and converts
to `None` / an empty dict.  The fixed regular expressions of the source
are embedded as backtracking matchers over `List Char` with Python `re`
semantics (leftmost match, greedy quantifiers, alternation tried in
order, `findall` resuming after each match).
-/

/-- ASCII word character: the regex class `[A-Za-z0-9_]`, also the base of
the word-boundary assertion `\b`. -/
def isWordChar (c : Char) : Bool := c.isAlpha || c.isDigit || c = '_'

/-- The regex class `[A-Za-z0-9_.]` used by `extract_username`. -/
def isHandleChar (c : Char) : Bool := c.isAlpha || c.isDigit || c = '_' || c = '.'

/-- Python whitespace, as recognized by `str.strip()` and the regex `\s`. -/
def isPySpace (c : Char) : Bool :=
  c = ' ' || c = '\t' || c = '\n' || c = '\x0b' || c = '\x0c' || c = '\r'

/-- Python `str.strip()` on character lists. -/
def pyStrip (l : List Char) : List Char :=
  ((l.dropWhile isPySpace).reverse.dropWhile isPySpace).reverse

/-- Python `str.strip()` on strings (`update.message.text.strip()`). -/
def pyStripStr (s : String) : String := String.mk (pyStrip s.data)

/-- One atom of the regexes used by the bot: a character class repeated
greedily between `lo` and `hi` times (`hi = none` meaning unbounded), or a
word boundary `\b`.  A literal character is a singleton class repeated
exactly once. -/
inductive RAtom where
  | cls (p : Char → Bool) (lo : Nat) (hi : Option Nat)
  | wb

/-- A literal character, e.g. `@` or `\.` in the email pattern. -/
def RAtom.lit (c : Char) : RAtom := .cls (fun d => d = c) 1 (some 1)

/-- The `\b` assertion holds when exactly one side is a word character
(a missing side, i.e. the edge of the string, counts as non-word). -/
def atBoundary (prev next : Option Char) : Bool :=
  (prev.any isWordChar) != (next.any isWordChar)

/-- Match a sequence of atoms at the head of `s` (`prev` is the character
just before `s`, needed by `\b`), returning the number of characters
consumed.  Greedy repetition with full backtracking: candidate run lengths
are tried from the largest allowed downwards, exactly the preference order
of Python `re`. -/
def matchSeq (atoms : List RAtom) (prev : Option Char) (s : List Char) :
    Option Nat :=
  match atoms with
  | [] => some 0
  | .wb :: as =>
    if atBoundary prev s.head? then matchSeq as prev s else none
  | .cls p lo hi :: as =>
    let maxRun := (s.takeWhile p).length
    let upper :=
      match hi with
      | some h => min h maxRun
      | none => maxRun
    ((List.range (upper + 1 - lo)).map (fun i => upper - i)).findSome?
      (fun k =>
        let prevK :=
          match (s.take k).getLast? with
          | some d => some d
          | none => prev
        (matchSeq as prevK (s.drop k)).map (fun m => k + m))

/-- One step bound of `re.findall`: the scan advances at least one
character per unit of fuel, so fuel `s.length` (as supplied by
`searchAll`) is never exhausted. -/
def searchAllAux (atoms : List RAtom) :
    Nat → Option Char → List Char → List (List Char)
  | 0, _, _ => []
  | _ + 1, _, [] => []
  | fuel + 1, prev, c :: rest =>
    match matchSeq atoms prev (c :: rest) with
    | some n =>
      let step := max n 1
      ((c :: rest).take n) ::
        searchAllAux atoms fuel (((c :: rest).take step).getLast?.getD c)
          ((c :: rest).drop step)
    | none => searchAllAux atoms fuel (some c) rest

/-- `re.findall` for a pattern without capture groups: scan left to right,
record each leftmost non-overlapping match, resume after its end.  (All
patterns fed to this function require at least one character, so the
empty-match special case of `re` never triggers.) -/
def searchAll (atoms : List RAtom) (prev : Option Char) (s : List Char) :
    List (List Char) :=
  searchAllAux atoms s.length prev s

/-- The class `[A-Za-z0-9._%+-]` (email local part). -/
def isLocalChar (c : Char) : Bool :=
  c.isAlpha || c.isDigit || c = '.' || c = '_' || c = '%' || c = '+' || c = '-'

/-- The class `[A-Za-z0-9.-]` (email domain). -/
def isDomainChar (c : Char) : Bool :=
  c.isAlpha || c.isDigit || c = '.' || c = '-'

/-- The class `[A-Z|a-z]` (email TLD; the pipe is a literal member). -/
def isTldChar (c : Char) : Bool := c.isAlpha || c = '|'

/-- The email pattern `\b[A-Za-z0-9._%+-]+@[A-Za-z0-9.-]+\.[A-Z|a-z]{2,}\b`
(the `re.IGNORECASE` flag is a no-op: every class is closed under case). -/
def emailAtoms : List RAtom :=
  [.wb, .cls isLocalChar 1 none, .lit '@', .cls isDomainChar 1 none,
   .lit '.', .cls isTldChar 2 none, .wb]

def isDigitC (c : Char) : Bool := c.isDigit

/-- The class `[-.]`. -/
def isDashDot (c : Char) : Bool := c = '-' || c = '.'

/-- The class `[-.\s]`. -/
def isDashDotSpace (c : Char) : Bool := c = '-' || c = '.' || isPySpace c

/-- Phone pattern `\b\d{3}[-.]?\d{3}[-.]?\d{4}\b`. -/
def phoneAtoms1 : List RAtom :=
  [.wb, .cls isDigitC 3 (some 3), .cls isDashDot 0 (some 1),
   .cls isDigitC 3 (some 3), .cls isDashDot 0 (some 1),
   .cls isDigitC 4 (some 4), .wb]

/-- Phone pattern `\b\(\d{3}\)\s*\d{3}[-.]?\d{4}\b`. -/
def phoneAtoms2 : List RAtom :=
  [.wb, .lit '(', .cls isDigitC 3 (some 3), .lit ')', .cls isPySpace 0 none,
   .cls isDigitC 3 (some 3), .cls isDashDot 0 (some 1),
   .cls isDigitC 4 (some 4), .wb]

/-- Phone pattern `\b\d{10}\b`. -/
def phoneAtoms3 : List RAtom := [.wb, .cls isDigitC 10 (some 10), .wb]

/-- Phone pattern
`\b\+\d{1,3}[-.\s]?\(?\d{1,4}\)?[-.\s]?\d{1,4}[-.\s]?\d{1,9}\b`. -/
def phoneAtoms4 : List RAtom :=
  [.wb, .lit '+', .cls isDigitC 1 (some 3), .cls isDashDotSpace 0 (some 1),
   .cls (fun c => c = '(') 0 (some 1), .cls isDigitC 1 (some 4),
   .cls (fun c => c = ')') 0 (some 1), .cls isDashDotSpace 0 (some 1),
   .cls isDigitC 1 (some 4), .cls isDashDotSpace 0 (some 1),
   .cls isDigitC 1 (some 9), .wb]

/-- The `phone_patterns` list of `extract_contact_from_bio`, in order. -/
def phonePatterns : List (List RAtom) :=
  [phoneAtoms1, phoneAtoms2, phoneAtoms3, phoneAtoms4]

/-- The literal part `instagram\.com/` of the first two URL patterns. -/
def instaLit : List Char := "instagram.com/".data

/-- Try `instagram\.com/([A-Za-z0-9_.]+)/?` at the current position.  The
optional trailing slash affects neither success nor the capture. -/
def tryUrlSlash (s : List Char) : Option (List Char) :=
  if s.take instaLit.length = instaLit then
    let g := (s.drop instaLit.length).takeWhile isHandleChar
    if g = [] then none else some g
  else none

/-- `re.search` for the first URL pattern: leftmost position at which it
matches. -/
def searchUrlSlash : List Char → Option (List Char)
  | [] => none
  | c :: rest =>
    match tryUrlSlash (c :: rest) with
    | some g => some g
    | none => searchUrlSlash rest

/-- Try `instagram\.com/([A-Za-z0-9_.]+)\?` at the current position: the
greedy capture must be followed by a literal question mark (the question
mark is outside the captured class, so no shorter capture could turn a
failure into a success). -/
def tryUrlQuery (s : List Char) : Option (List Char) :=
  if s.take instaLit.length = instaLit then
    let rest := s.drop instaLit.length
    let g := rest.takeWhile isHandleChar
    if g = [] then none
    else if (rest.drop g.length).head? = some '?' then some g else none
  else none

/-- `re.search` for the second URL pattern. -/
def searchUrlQuery : List Char → Option (List Char)
  | [] => none
  | c :: rest =>
    match tryUrlQuery (c :: rest) with
    | some g => some g
    | none => searchUrlQuery rest

/-- The anchored pattern `^([A-Za-z0-9_.]+)$`. -/
def matchBare (s : List Char) : Option (List Char) :=
  if s.isEmpty then none
  else if s.all isHandleChar then some s else none

/-- `username.split('/')[0].split('?')[0]`. -/
def splitHead (g : List Char) : List Char :=
  (g.takeWhile (fun c => c ≠ '/')).takeWhile (fun c => c ≠ '?')

/-- `InstagramBot.extract_username`: remove every `@`, then try the three
patterns in order; the first match wins; `None` when nothing matches. -/
def extract_username (text : String) : Option String :=
  let t := text.data.filter (fun c => c ≠ '@')
  match searchUrlSlash t with
  | some g => some (String.mk (splitHead g))
  | none =>
    match searchUrlQuery t with
    | some g => some (String.mk (splitHead g))
    | none =>
      match matchBare t with
      | some g => some (String.mk (splitHead g))
      | none => none

/-- The character class of `clean_text`:
each member is replaced by a backslash followed by itself. -/
def specialChars : List Char :=
  ['*', '_', Char.ofNat 96, '[', ']', '(', ')', '~', '>', '#', '+', '=',
   '|', Char.ofNat 123, Char.ofNat 125, '.', '!', '-']

def isSpecial (c : Char) : Bool := specialChars.contains c

/-- One substitution step of `re.sub(r'([*_\x60\[\]()~>#+=|\x7b\x7d.!-])', r'\\\1', text)`. -/
def escChar (c : Char) : List Char := if isSpecial c then ['\\', c] else [c]

def cleanChars (l : List Char) : List Char := l.bind escChar

/-- `InstagramBot.clean_text`: falsy input (absent or empty) maps to the
empty string, otherwise every special character is prefixed with a
backslash. -/
def clean_text : Option String → String
  | none => ""
  | some s => if s = "" then "" else String.mk (cleanChars s.data)

/-- The two shapes of captured value in the `social_patterns` table. -/
inductive ValKind where
  | handleAt  -- separator, then a literal at-sign, then `([A-Za-z0-9_]+)`
  | loose     -- separator, then `([0-9+()\- ]+)`

/-- One alternation branch: a lowercase trigger literal (matched
case-insensitively) followed by `[: ]*` and the captured value. -/
structure SocialBranch where
  trigger : List Char
  kind : ValKind

/-- The class `[0-9+()\- ]`. -/
def isLooseChar (c : Char) : Bool :=
  c.isDigit || c = '+' || c = '(' || c = ')' || c = '-' || c = ' '

/-- The class `[: ]`. -/
def isSepChar (c : Char) : Bool := c = ':' || c = ' '

/-- Try one branch at the current position; on success return the capture
and the total number of characters consumed.  For the `loose` kind the
greedy `[: ]*` backtracks (largest separator run first) until the capture
class can match at least one character, as Python `re` does; for the
`handleAt` kind no backtracking can help, because the at-sign is in
neither class. -/
def tryBranch (b : SocialBranch) (s : List Char) : Option (List Char × Nat) :=
  if (s.take b.trigger.length).map Char.toLower = b.trigger then
    let rest := s.drop b.trigger.length
    match b.kind with
    | .handleAt =>
      let sep := rest.takeWhile isSepChar
      match rest.drop sep.length with
      | '@' :: afterAt =>
        let g := afterAt.takeWhile isWordChar
        if g = [] then none
        else some (g, b.trigger.length + sep.length + 1 + g.length)
      | _ => none
    | .loose =>
      let m := (rest.takeWhile isSepChar).length
      match ((List.range (m + 1)).map (fun i => m - i)).find?
          (fun j => (rest.drop j).head?.any isLooseChar) with
      | some j =>
        let g := (rest.drop j).takeWhile isLooseChar
        some (g, b.trigger.length + j + g.length)
      | none => none
  else none

/-- Fueled scan for `re.findall` over an alternation of branches: at each
position the branches are tried in order; after a match the scan resumes
at its end.  Triggers are nonempty, so every match consumes at least one
character and fuel `s.length` is never exhausted. -/
def socialScanAux (bs : List SocialBranch) :
    Nat → List Char → List (List Char)
  | 0, _ => []
  | _ + 1, [] => []
  | fuel + 1, c :: rest =>
    match bs.findSome? (fun b => tryBranch b (c :: rest)) with
    | some (g, n) => g :: socialScanAux bs fuel ((c :: rest).drop (max n 1))
    | none => socialScanAux bs fuel rest

/-- `re.findall(pattern, bio, re.IGNORECASE)` for one social pattern,
returning the captured group of each match. -/
def socialScan (bs : List SocialBranch) (s : List Char) : List (List Char) :=
  socialScanAux bs s.length s

/-- One entry of the `social_patterns` dict: the title-cased label, the
alternation branches, and whether the pattern has a single capture group
(in which case `re.findall` returns plain strings instead of tuples). -/
structure SocialPlatform where
  label : String
  branches : List SocialBranch
  singleGroup : Bool

/-- The `social_patterns` table, in dict insertion order. -/
def socialPlatforms : List SocialPlatform :=
  [ ⟨"Telegram", [⟨"telegram".data, .handleAt⟩, ⟨"tg".data, .handleAt⟩], false⟩,
    ⟨"Whatsapp", [⟨"whatsapp".data, .loose⟩, ⟨"wa".data, .loose⟩], false⟩,
    ⟨"Signal", [⟨"signal".data, .loose⟩], true⟩,
    ⟨"Snapchat", [⟨"snapchat".data, .handleAt⟩, ⟨"snap".data, .handleAt⟩], false⟩,
    ⟨"Twitter", [⟨"twitter".data, .handleAt⟩, ⟨"twt".data, .handleAt⟩], false⟩ ]

/-- The inner loop
`for group in match: if group and group.strip(): ...append...; break`
of `extract_contact_from_bio`.  For a two-group alternation the match is a
tuple and the loop appends the first nonblank group, stripped.  For the
single-group signal pattern `re.findall` returns the captured string
itself, so the loop iterates over its characters and appends only the
first nonblank character. -/
def handleEntries (plat : SocialPlatform) (g : List Char) : List String :=
  if plat.singleGroup then
    match g.find? (fun c => !(isPySpace c)) with
    | some c => [plat.label ++ ": " ++ String.mk [c]]
    | none => []
  else
    if g.isEmpty then []
    else if (pyStrip g).isEmpty then []
    else [plat.label ++ ": " ++ String.mk (pyStrip g)]

/-- The per-request contact bundle mined from the biography. -/
structure BioContacts where
  emails : List String
  phones : List String
  social_handles : List String
deriving DecidableEq

/-- `InstagramBot.extract_contact_from_bio`.  Python's
`list(set(xs))` is modeled as `List.dedup` (set iteration order is not
specified by the source; only membership and cardinality matter here). -/
def extract_contact_from_bio (bio : String) : BioContacts :=
  if bio = "" then ⟨[], [], []⟩
  else
    let emails := ((searchAll emailAtoms none bio.data).map String.mk).dedup
    let phones :=
      (((phonePatterns.map (fun pat => searchAll pat none bio.data)).join).map
        String.mk).dedup
    let socials :=
      ((socialPlatforms.map (fun plat =>
        (socialScan plat.branches bio.data).bind (handleEntries plat))).join).dedup
    ⟨emails, phones, socials⟩


/-- The parts of a successfully retrieved and parsed external page that
`get_contacts_from_website` consumes: the `href` of every anchor whose
`href` matches `mailto:`, the visible page text (`soup.get_text()`), and
the `href` of every anchor whose `href` matches `tel:`. -/
structure WebPage where
  mailtoHrefs : List String
  pageText : String
  telHrefs : List String

/-- The contact bundle mined from the linked website. -/
structure WebContacts where
  emails : List String
  phones : List String
  contact_links : List String
deriving DecidableEq

/-- Fueled form of Python `str.replace(pat, '')` for a nonempty pattern:
each unit of fuel advances at least one character. -/
def removeAllSubAux (pat : List Char) : Nat → List Char → List Char
  | 0, l => l
  | _ + 1, [] => []
  | fuel + 1, c :: rest =>
    if (c :: rest).take pat.length = pat then
      removeAllSubAux pat fuel ((c :: rest).drop (max pat.length 1))
    else c :: removeAllSubAux pat fuel rest

/-- Python `str.replace(pat, '')`: delete every occurrence of `pat`. -/
def removeAllSub (pat l : List Char) : List Char :=
  removeAllSubAux pat l.length l

/-- `'?'.split(...)[0]`: the text up to the first question mark. -/
def upToQuery (l : List Char) : List Char := l.takeWhile (fun c => c ≠ '?')

/-- The successful-retrieval body of `get_contacts_from_website`: emails
from `mailto:` link targets (scheme stripped, query suffix dropped,
kept only when nonempty and containing an at-sign) plus a text-pattern
email scan, phones strictly from `tel:` link targets; each collection is
deduplicated and capped at 3. -/
def websiteContactsOf (page : WebPage) : WebContacts :=
  let mailtoEmails := page.mailtoHrefs.bind (fun href =>
    let e := upToQuery (removeAllSub "mailto:".data href.data)
    if e.isEmpty then [] else if e.contains '@' then [String.mk e] else [])
  let textEmails := (searchAll emailAtoms none page.pageText.data).map String.mk
  let phones := page.telHrefs.bind (fun href =>
    let p := removeAllSub "tel:".data href.data
    if p.isEmpty then [] else [String.mk p])
  { emails := ((mailtoEmails ++ textEmails).dedup).take 3,
    phones := (phones.dedup).take 3,
    contact_links := [] }

/-- Python `str.startswith`. -/
def pyStarts (s pre : String) : Bool := s.data.take pre.data.length = pre.data

/-- The scheme normalization of `get_contacts_from_website`. -/
def withScheme (url : String) : String :=
  if pyStarts url "http://" || pyStarts url "https://" then url
  else "https://" ++ url

/-- `InstagramBot.get_contacts_from_website`; the page retrieval is the
oracle `fetch`, whose `none` models the request/parse failure path, on
which the method returns its initial empty dict. -/
def get_contacts_from_website (fetch : String → Option WebPage)
    (url : String) : WebContacts :=
  match fetch (withScheme url) with
  | none => ⟨[], [], []⟩
  | some page => websiteContactsOf page

/-- The normalized profile record built by either data source (the dict of
`get_profile_info_instaloader` / `get_profile_info_web`). -/
structure ProfileRecord where
  username : String
  full_name : String
  biography : String
  followers : Option Nat
  following : Option Nat
  posts : Option Nat
  is_private : Bool
  is_verified : Bool
  profile_pic_url : Option String
  external_url : Option String
  business_category : Option String
deriving DecidableEq

/-- Python truthiness of an optional string (`None` and the empty string
are falsy). -/
def optTruthy : Option String → Bool
  | none => false
  | some s => !s.isEmpty

/-- The raw attributes `get_profile_info_instaloader` reads off an
`instaloader.Profile`. -/
structure RawInstaProfile where
  username : String
  full_name : Option String
  biography : Option String
  followers : Nat
  followees : Nat
  mediacount : Nat
  is_private : Bool
  is_verified : Bool
  profile_pic_url : String
  external_url : Option String
  business_category_name : Option String

/-- `InstagramBot.get_profile_info_instaloader`: the lookup step is the
oracle `fetchRaw` (whose `none` models the exception path, logged and
returned as `None`); on success the free-text fields are passed through
`clean_text` (`full_name or ''` and `biography or ''` turn an absent value
into the empty string first; `business_category_name` is passed as is). -/
def get_profile_info_instaloader (fetchRaw : String → Option RawInstaProfile)
    (username : String) : Option ProfileRecord :=
  match fetchRaw username with
  | none => none
  | some p => some
    { username := p.username,
      full_name := clean_text (some (p.full_name.getD "")),
      biography := clean_text (some (p.biography.getD "")),
      followers := some p.followers,
      following := some p.followees,
      posts := some p.mediacount,
      is_private := p.is_private,
      is_verified := p.is_verified,
      profile_pic_url := some p.profile_pic_url,
      external_url := p.external_url,
      business_category := some (clean_text p.business_category_name) }

/-- Thousands separators: Python `f"{n:,}"` on a nonnegative integer. -/
def commaGroupsAux : Nat → List Char → List Char
  | 0, l => l
  | _ + 1, [] => []
  | fuel + 1, c :: rest =>
    if (c :: rest).length ≤ 3 then c :: rest
    else (c :: rest).take 3 ++ ',' :: commaGroupsAux fuel ((c :: rest).drop 3)

def commaFmt (n : Nat) : String :=
  String.mk ((commaGroupsAux (toString n).data.length (toString n).data.reverse).reverse)

/-- Python `any(xs or ys or ...)`: `or` picks the first nonempty list
(or the last), and `any` then asks whether it holds a truthy (nonempty)
string. -/
def pyAnyStr (l : List String) : Bool := l.any (fun s => !s.isEmpty)

def firstTruthy2 (a b : List String) : List String := if a.isEmpty then b else a

def firstTruthy3 (a b c : List String) : List String :=
  if a.isEmpty then firstTruthy2 b c else a

/-- One bulleted sub-list of the contact section. -/
def bulletLines (items : List String) : String :=
  String.join (items.map (fun x => "   • " ++ x ++ "\n"))

/-- `InstagramBot.format_contact_response`. -/
def format_contact_response (contacts : BioContacts) (web : WebContacts) :
    String :=
  let has_bio :=
    pyAnyStr (firstTruthy3 contacts.emails contacts.phones contacts.social_handles)
  let has_web := pyAnyStr (firstTruthy2 web.emails web.phones)
  let bioSec :=
    if has_bio then
      "📞 Contact Information from Bio:\n"
      ++ (if contacts.emails.isEmpty then ""
          else "📧 Emails:\n" ++ bulletLines contacts.emails)
      ++ (if contacts.phones.isEmpty then ""
          else "📱 Phones:\n" ++ bulletLines contacts.phones)
      ++ (if contacts.social_handles.isEmpty then ""
          else "💬 Social Handles:\n" ++ bulletLines (contacts.social_handles.take 5))
    else ""
  let webSec :=
    if has_web then
      (if has_bio then "\n" else "")
      ++ "🌐 Contact Information from Website:\n"
      ++ (if web.emails.isEmpty then ""
          else "📧 Website Emails:\n" ++ bulletLines web.emails)
      ++ (if web.phones.isEmpty then ""
          else "📱 Website Phones:\n" ++ bulletLines web.phones)
    else ""
  if !has_bio && !has_web then
    "❌ No contact information found in bio or linked website.\nContact details are only available if the user shares them publicly."
  else bioSec ++ webSec

/-- `InstagramBot.format_profile_response`. -/
def format_profile_response (p : ProfileRecord) (username : String)
    (contacts : BioContacts) (web : WebContacts) : String :=
  let r := "📱 Instagram Profile Info\n\n" ++ "Username: @" ++ p.username ++ "\n"
  let r := r ++ (if p.full_name.isEmpty then ""
    else "👤 Name: " ++ p.full_name ++ "\n")
  let r := r ++ (match p.followers with
    | some n => "👥 Followers: " ++ commaFmt n ++ "\n"
    | none => "")
  let r := r ++ (match p.following with
    | some n => "🔄 Following: " ++ commaFmt n ++ "\n"
    | none => "")
  let r := r ++ (match p.posts with
    | some n => "📸 Posts: " ++ commaFmt n ++ "\n"
    | none => "")
  let r := r ++ (if p.biography.isEmpty then ""
    else "📝 Bio: "
      ++ (if p.biography.data.length > 500 then
            String.mk (p.biography.data.take 500) ++ "..."
          else p.biography)
      ++ "\n")
  let r := r ++ (match p.external_url with
    | some u => if u.isEmpty then "" else "🔗 Website: " ++ u ++ "\n"
    | none => "")
  let r := r ++ (match p.business_category with
    | some c => if c.isEmpty then "" else "💼 Category: " ++ c ++ "\n"
    | none => "")
  let status := (if p.is_private then ["🔒 Private"] else ["🔓 Public"])
    ++ (if p.is_verified then ["✅ Verified"] else [])
  let r := r ++ (if status.isEmpty then ""
    else "\nStatus: " ++ String.intercalate " | " status ++ "\n")
  let contact_response := format_contact_response contacts web
  let r := r ++ (if contact_response.isEmpty then ""
    else "\n" ++ contact_response)
  r ++ "\n🔗 Profile URL: https://www.instagram.com/" ++ username ++ "/"

/-- The fixed-size slicing
`[response[i:i+4000] for i in range(0, len(response), 4000)]`:
one slice of 4000 characters per step while more than 4000 remain, then
the final (possibly shorter) slice. -/
def sliceChunks (l : List Char) : List (List Char) :=
  if l.length ≤ 4000 then [l]
  else l.take 4000 :: sliceChunks (l.drop 4000)
termination_by l.length
decreasing_by simp [List.length_drop]; omega

/-- The chunking step of `handle_instagram_url`: bodies over 4000
characters are sliced, anything else is sent as a single message. -/
def splitMessage (s : String) : List String :=
  if s.data.length > 4000 then (sliceChunks s.data).map String.mk else [s]

/-- Reply text for an input from which no username could be extracted. -/
def invalidMessage : String :=
  "❌ Invalid Instagram URL or username.\nPlease send a valid Instagram profile link.\n\nExamples:\n• https://www.instagram.com/username/\n• @username\n• username"

/-- Reply text for a private profile. -/
def privateMessage : String :=
  "🔒 This profile is private.\n\nI can only access public profile information. Please make sure the profile is public or try another account."

/-- Reply text when both data sources yield no result. -/
def couldNotFetchMessage : String :=
  "❌ Could not fetch profile information.\n\nPossible reasons:\n• Profile doesn\x27t exist\n• Instagram rate limiting\n• Network issues\n• Profile is private\n\nPlease try again later or check the username."

def emptyWebContacts : WebContacts := ⟨[], [], []⟩

/-- Lines 362-392 of `handle_instagram_url`: what happens once a profile
record has been obtained.  The bio miner and the website contact fetcher
appear as parameters so that their (non-)invocation is visible in the
model; the pipeline instantiates `mineBio` with
`extract_contact_from_bio`. -/
def handleFetchedProfile (mineBio : String → BioContacts)
    (webFetch : String → Option WebPage) (p : ProfileRecord)
    (username : String) : List String :=
  if p.is_private then [privateMessage]
  else
    let contacts := mineBio p.biography
    let website_contacts :=
      if optTruthy p.external_url then
        get_contacts_from_website webFetch (p.external_url.getD "")
      else emptyWebContacts
    splitMessage (format_profile_response p username contacts website_contacts)

/-- The dual-source fetch of lines 354-360: the primary (structured)
source `srcA` first, the markup-scraping fallback `srcB` only when the
primary yielded no result, both with the same identifier. -/
def fetchProfile (srcA srcB : String → Option ProfileRecord) (u : String) :
    Option ProfileRecord :=
  match srcA u with
  | some p => some p
  | none => srcB u

/-- The pipeline from a successfully extracted username onwards. -/
def handleUsername (srcA srcB : String → Option ProfileRecord)
    (webFetch : String → Option WebPage) (username : String) : List String :=
  match fetchProfile srcA srcB username with
  | some p => handleFetchedProfile extract_contact_from_bio webFetch p username
  | none => [couldNotFetchMessage]

/-- `InstagramBot.handle_instagram_url` as a function from the raw message
text to the ordered list of reply texts, with the two profile data
sources and the website retrieval passed as oracles. -/
def handle_instagram_url (srcA srcB : String → Option ProfileRecord)
    (webFetch : String → Option WebPage) (input : String) : List String :=
  match extract_username (pyStripStr input) with
  | none => [invalidMessage]
  | some username => handleUsername srcA srcB webFetch username

/-! Helper lemmas about the sanitizer. -/

theorem cleanChars_cons (c : Char) (l : List Char) :
    cleanChars (c :: l) = escChar c ++ cleanChars l := rfl

theorem cleanChars_length (l : List Char) :
    (cleanChars l).length = l.length + l.countP isSpecial := by
  induction l with
  | nil => rfl
  | cons c l ih =>
    rw [cleanChars_cons, List.length_append, ih, List.countP_cons,
      List.length_cons]
    by_cases h : isSpecial c <;> simp [escChar, h] <;> omega

theorem cleanChars_countP (l : List Char) :
    (cleanChars l).countP isSpecial = l.countP isSpecial := by
  induction l with
  | nil => rfl
  | cons c l ih =>
    rw [cleanChars_cons, List.countP_append, ih, List.countP_cons]
    by_cases h : isSpecial c
    · simp [escChar, h, List.countP_cons,
        show isSpecial '\\' = false from by decide]
      omega
    · simp [escChar, h, List.countP_cons]

/-- C9: the text sanitizer is not idempotent: for every string containing
at least one character of the fixed special-character set, sanitizing a
second time changes the result again (already-escaped text is
double-escaped). -/
theorem c9_sanitize_not_idempotent (s : String)
    (h : ∃ c ∈ s.data, isSpecial c = true) :
    clean_text (some (clean_text (some s))) ≠ clean_text (some s) := by
  have hk : 0 < s.data.countP isSpecial := List.countP_pos_iff.mpr h
  have hdata : s.data ≠ [] := by
    intro e; rw [e] at hk; simp at hk
  have hsne : s ≠ "" := by
    intro e; apply hdata; rw [e]
  have h1 : clean_text (some s) = String.mk (cleanChars s.data) := by
    simp [clean_text, hsne]
  have htne : String.mk (cleanChars s.data) ≠ "" := by
    intro e
    have h2 : cleanChars s.data = [] := congrArg String.data e
    have h3 : (cleanChars s.data).length = 0 := by rw [h2]; rfl
    rw [cleanChars_length] at h3
    omega
  rw [h1]
  have h4 : clean_text (some (String.mk (cleanChars s.data)))
      = String.mk (cleanChars (cleanChars s.data)) := by
    simp [clean_text, htne]
  rw [h4]
  intro he
  have he2 : cleanChars (cleanChars s.data) = cleanChars s.data :=
    congrArg String.data he
  have h5 := congrArg List.length he2
  rw [cleanChars_length (cleanChars s.data), cleanChars_countP,
    cleanChars_length] at h5
  omega

theorem c9_witness :
    (∃ c ∈ ("a.b" : String).data, isSpecial c = true)
    ∧ clean_text (some (clean_text (some "a.b"))) ≠ clean_text (some "a.b") :=
  ⟨by decide, c9_sanitize_not_idempotent "a.b" (by decide)⟩

/-- C10: the sanitizer is total on empty or absent input — both map to the
empty string — so an instaloader record whose name, biography and category
attributes are all absent is still fetched successfully, with those fields
carried as empty strings. -/
theorem c10_sanitize_total :
    clean_text none = "" ∧ clean_text (some "") = ""
    ∧ ∀ (fetchRaw : String → Option RawInstaProfile) (u : String)
        (p : RawInstaProfile),
        fetchRaw u = some p → p.full_name = none → p.biography = none →
        p.business_category_name = none →
        ∃ rec, get_profile_info_instaloader fetchRaw u = some rec
          ∧ rec.full_name = "" ∧ rec.biography = ""
          ∧ rec.business_category = some "" := by
  refine ⟨rfl, rfl, ?_⟩
  intro fetchRaw u p hf h1 h2 h3
  simp only [get_profile_info_instaloader, hf]
  refine ⟨_, rfl, ?_, ?_, ?_⟩
  · rw [h1]; rfl
  · rw [h2]; rfl
  · rw [h3]; rfl

def sampleRawProfile : RawInstaProfile :=
  { username := "abc", full_name := none, biography := none,
    followers := 0, followees := 0, mediacount := 0,
    is_private := false, is_verified := false, profile_pic_url := "",
    external_url := none, business_category_name := none }

theorem c10_witness :
    ∃ rec, get_profile_info_instaloader (fun _ => some sampleRawProfile)
        "abc" = some rec
      ∧ rec.full_name = "" ∧ rec.biography = ""
      ∧ rec.business_category = some "" :=
  c10_sanitize_total.2.2 (fun _ => some sampleRawProfile) "abc"
    sampleRawProfile rfl rfl rfl rfl

/-- C4: the identifier normalizer maps a full profile URL with trailing
slash, a full profile URL with a query string, an at-prefixed handle, and
a bare handle to the same identifier. -/
theorem c4_normalizer_examples :
    extract_username "https://www.instagram.com/abc/" = some "abc"
    ∧ extract_username "https://instagram.com/abc?x=1" = some "abc"
    ∧ extract_username "@abc" = some "abc"
    ∧ extract_username "abc" = some "abc" :=
  ⟨by decide, by decide, by decide, by decide⟩

/-- C5: the claim that each regex match contributes the first non-empty
capture group, trimmed, fails for the single-group signal pattern:
`re.findall` returns plain strings there, the per-group loop iterates over
the characters of the matched value, and only the first nonblank character
is recorded — the bio `"signal: 123"` yields `"Signal: 1"`, not
`"Signal: 123"`.  The two-group telegram examples behave as claimed. -/
theorem c5_signal_divergence :
    (extract_contact_from_bio "signal: 123").social_handles = ["Signal: 1"]
    ∧ (extract_contact_from_bio "DM me on telegram: @foo").social_handles
        = ["Telegram: foo"]
    ∧ (extract_contact_from_bio "tg:@foo").social_handles = ["Telegram: foo"] :=
  ⟨by decide, by decide, by decide⟩

/-- C6: bio email mining returns the matches of the email pattern with
duplicates removed: the example bio yields exactly one email, a bio
containing the same address twice yields a one-element set, and the email
collection never contains duplicates. -/
theorem c6_email_mining :
    (extract_contact_from_bio "contact me at a.b@example.com!").emails
        = ["a.b@example.com"]
    ∧ (extract_contact_from_bio "write a@b.co or a@b.co").emails = ["a@b.co"]
    ∧ ∀ bio : String, (extract_contact_from_bio bio).emails.Nodup := by
  refine ⟨by decide, by decide, ?_⟩
  intro bio
  by_cases h : bio = "" <;> simp [extract_contact_from_bio, h, List.nodup_dedup]

/-- C1: the profile fetch tries the primary source first; the fallback is
consulted, with the same identifier, exactly when the primary yields no
result; and when both yield no result the pipeline replies with the fixed
could-not-fetch text instead of raising. -/
theorem c1_fetch_fallback_and_unavailable
    (srcA srcB : String → Option ProfileRecord)
    (webFetch : String → Option WebPage) (u : String) :
    (∀ p, srcA u = some p → fetchProfile srcA srcB u = some p)
    ∧ (srcA u = none → fetchProfile srcA srcB u = srcB u)
    ∧ (srcA u = none → srcB u = none →
        handleUsername srcA srcB webFetch u = [couldNotFetchMessage]) := by
  refine ⟨?_, ?_, ?_⟩
  · intro p h; simp [fetchProfile, h]
  · intro h; simp [fetchProfile, h]
  · intro h1 h2; simp [handleUsername, fetchProfile, h1, h2]

theorem c1_witness :
    handleUsername (fun _ => none) (fun _ => none) (fun _ => none) "abc"
      = [couldNotFetchMessage] :=
  (c1_fetch_fallback_and_unavailable (fun _ => none) (fun _ => none)
    (fun _ => none) "abc").2.2 rfl rfl

/-- C2: a fetched record whose private flag is set short-circuits to
exactly the fixed private-profile reply, for every bio miner and every
website contact fetcher — so neither is invoked and no mined-contact text
can appear in the output. -/
theorem c2_private_short_circuit (mineBio : String → BioContacts)
    (webFetch : String → Option WebPage) (p : ProfileRecord) (u : String)
    (hp : p.is_private = true) :
    handleFetchedProfile mineBio webFetch p u = [privateMessage] := by
  simp [handleFetchedProfile, hp]

def samplePrivateProfile : ProfileRecord :=
  { username := "abc", full_name := "", biography := "tg:@foo",
    followers := none, following := none, posts := none,
    is_private := true, is_verified := false, profile_pic_url := none,
    external_url := some "https://x.co", business_category := none }

theorem c2_witness :
    handleFetchedProfile extract_contact_from_bio (fun _ => none)
      samplePrivateProfile "abc" = [privateMessage] :=
  c2_private_short_circuit extract_contact_from_bio (fun _ => none)
    samplePrivateProfile "abc" rfl

/-- C8: whenever the website retrieval fails, the website contact fetcher
returns the empty bundle rather than raising. -/
theorem c8_website_failure_empty (fetch : String → Option WebPage)
    (url : String) (h : fetch (withScheme url) = none) :
    get_contacts_from_website fetch url = ⟨[], [], []⟩ := by
  simp [get_contacts_from_website, h]

theorem c8_witness :
    get_contacts_from_website (fun _ => none) "example.com" = ⟨[], [], []⟩ :=
  c8_website_failure_empty (fun _ => none) "example.com" rfl

def fiveMailtoPage : WebPage :=
  { mailtoHrefs := ["mailto:a@x.co", "mailto:b@x.co", "mailto:c@x.co",
      "mailto:d@x.co", "mailto:e@x.co"],
    pageText := "", telHrefs := [] }

/-- C7: on a successful retrieval the website contact fetcher caps the
email and phone collections at 3 entries each after deduplication; in
particular a page with 5 distinct mailto links yields at most 3 emails. -/
theorem c7_website_cap :
    (∀ page : WebPage, (websiteContactsOf page).emails.length ≤ 3
      ∧ (websiteContactsOf page).phones.length ≤ 3)
    ∧ fiveMailtoPage.mailtoHrefs.length = 5
    ∧ fiveMailtoPage.mailtoHrefs.Nodup
    ∧ (get_contacts_from_website (fun _ => some fiveMailtoPage)
        "example.com").emails.length ≤ 3 := by
  refine ⟨?_, by decide, by decide, by decide⟩
  intro page
  constructor <;> exact List.length_take_le _ _

/-! Helper lemmas about the chunking step. -/

theorem sliceChunks_flatten (l : List Char) : (sliceChunks l).flatten = l := by
  rw [sliceChunks]
  by_cases h : l.length ≤ 4000
  · simp [h]
  · rw [if_neg h, List.flatten_cons, sliceChunks_flatten (l.drop 4000)]
    exact List.take_append_drop 4000 l
termination_by l.length
decreasing_by simp [List.length_drop]; omega

theorem sliceChunks_ne_nil (l : List Char) : sliceChunks l ≠ [] := by
  rw [sliceChunks]; split <;> simp

theorem sliceChunks_le (l : List Char) :
    ∀ c ∈ sliceChunks l, c.length ≤ 4000 := by
  intro c hc
  rw [sliceChunks] at hc
  by_cases h : l.length ≤ 4000
  · rw [if_pos h] at hc
    simp at hc
    exact hc ▸ h
  · rw [if_neg h] at hc
    rcases List.mem_cons.mp hc with hc | hc
    · subst hc; rw [List.length_take]; omega
    · exact sliceChunks_le (l.drop 4000) c hc
termination_by l.length
decreasing_by simp [List.length_drop]; omega

theorem sliceChunks_dropLast (l : List Char) :
    ∀ c ∈ (sliceChunks l).dropLast, c.length = 4000 := by
  intro c hc
  rw [sliceChunks] at hc
  by_cases h : l.length ≤ 4000
  · rw [if_pos h] at hc
    simp at hc
  · rw [if_neg h] at hc
    rw [List.dropLast_cons_of_ne_nil (sliceChunks_ne_nil _)] at hc
    rcases List.mem_cons.mp hc with hc | hc
    · subst hc; rw [List.length_take]; omega
    · exact sliceChunks_dropLast (l.drop 4000) c hc
termination_by l.length
decreasing_by simp [List.length_drop]; omega

theorem string_data_append (a b : String) : (a ++ b).data = a.data ++ b.data := rfl

theorem string_data_mk (l : List Char) : (String.mk l).data = l := rfl

theorem string_eq_of_data {a b : String} (h : a.data = b.data) : a = b :=
  congrArg String.mk h

theorem string_foldl_data (L : List String) (acc : String) :
    (L.foldl (fun r s => r ++ s) acc).data
      = acc.data ++ (L.map String.data).flatten := by
  induction L generalizing acc with
  | nil => simp
  | cons s L ih => simp [ih, string_data_append]

theorem string_join_data (L : List String) :
    (String.join L).data = (L.map String.data).flatten := by
  rw [show String.join L = L.foldl (fun r s => r ++ s) "" from rfl,
    string_foldl_data]
  rfl

/-- C3: every composed body is chunked into pieces of at most 4000
characters whose concatenation is the whole body, every piece but the last
has exactly 4000 characters, and a body of exactly 8001 characters yields
three chunks of sizes 4000, 4000 and 1. -/
theorem c3_chunking :
    (∀ s : String,
      ((splitMessage s).all (fun c => c.data.length ≤ 4000)) = true
      ∧ String.join (splitMessage s) = s
      ∧ (((splitMessage s).dropLast).all (fun c => c.data.length = 4000)) = true)
    ∧ ((splitMessage (String.mk (List.replicate 8001 'a'))).map
        (fun c => c.data.length)) = [4000, 4000, 1] := by
  constructor
  · intro s
    refine ⟨?_, ?_, ?_⟩
    · rw [List.all_eq_true]
      intro c hc
      rw [splitMessage] at hc
      by_cases h : s.data.length > 4000
      · rw [if_pos h] at hc
        obtain ⟨cl, hcl, rfl⟩ := List.mem_map.mp hc
        have := sliceChunks_le s.data cl hcl
        simpa [string_data_mk] using this
      · rw [if_neg h] at hc
        simp at hc
        subst hc
        simp only [decide_eq_true_eq]
        omega
    · rw [splitMessage]
      by_cases h : s.data.length > 4000
      · rw [if_pos h]
        apply string_eq_of_data
        rw [string_join_data, List.map_map,
          show (String.data ∘ String.mk) = id from rfl, List.map_id]
        exact sliceChunks_flatten s.data
      · rw [if_neg h]
        apply string_eq_of_data
        rw [string_join_data]
        simp
    · rw [List.all_eq_true]
      intro c hc
      rw [splitMessage] at hc
      by_cases h : s.data.length > 4000
      · rw [if_pos h] at hc
        rw [← List.map_dropLast] at hc
        obtain ⟨cl, hcl, rfl⟩ := List.mem_map.mp hc
        have := sliceChunks_dropLast s.data cl hcl
        simpa [string_data_mk] using this
      · rw [if_neg h] at hc
        simp at hc
  · have e3 : sliceChunks (List.replicate 1 'a') = [List.replicate 1 'a'] := by
      rw [sliceChunks,
        if_pos (by rw [List.length_replicate]; norm_num)]
    have e2 : sliceChunks (List.replicate 4001 'a')
        = List.replicate 4000 'a' :: [List.replicate 1 'a'] := by
      rw [sliceChunks,
        if_neg (by rw [List.length_replicate]; norm_num),
        List.take_replicate, List.drop_replicate,
        show min 4000 4001 = 4000 from by norm_num,
        show (4001 : Nat) - 4000 = 1 from by norm_num, e3]
    have e1 : sliceChunks (List.replicate 8001 'a')
        = List.replicate 4000 'a' :: List.replicate 4000 'a'
            :: [List.replicate 1 'a'] := by
      rw [sliceChunks,
        if_neg (by rw [List.length_replicate]; norm_num),
        List.take_replicate, List.drop_replicate,
        show min 4000 8001 = 4000 from by norm_num,
        show (8001 : Nat) - 4000 = 4001 from by norm_num, e2]
    rw [splitMessage,
      if_pos (by rw [string_data_mk, List.length_replicate]; norm_num),
      string_data_mk, e1]
    simp only [List.map_cons, List.map_nil, string_data_mk,
      List.length_replicate]
